import Mathlib

/-!
Shallow embedding of `src/tela_final_creator.py`.

The script composes three video layers (background, overlay, specific) into
one "final screen" video.  The embedding models:

* the filename filters used by `process_videos` and `main`
  (Python `str.startswith` / `str.endswith` tests on directory listings);
* the batch loop of `process_videos` as a recursion over the filtered list
  of specific-clip filenames, with the external media engine abstracted by a
  success oracle `renderOk : Job → Bool`;
* the moviepy pipeline inside `create_final_screen` as explicit state
  passing over a `Clip` record that tracks duration, size and the list of
  applied operations (`Effect`), following moviepy 1.x semantics
  (`subclip(0, t)` sets the duration to `t` without bounds-checking `t`
  against the clip's own duration);
* the `try/except` of `create_final_screen` as a `failAt : Option Step`
  oracle saying which pipeline step (if any) raises, together with explicit
  `opened`/`closed` resource-handle lists (the Python code closes clips only
  after a successful `write_videofile`, so the exception branch closes
  nothing);
* `main`'s configuration checks and exit codes over an `Env` record holding
  the directory listings and folder-existence facts.
-/

namespace TelaFinalCreator

/-- Python `os.path.join(d, f)` for a folder path without trailing separator. -/
def joinPath (d f : String) : String := d ++ "/" ++ f

/-- Python `s.startswith(p)`: the first `len(p)` characters of `s` equal `p`. -/
def strStartsWith (s p : String) : Bool := s.take p.length == p

/-- Python `s.endswith(p)`: the last `len(p)` characters of `s` equal `p`. -/
def strEndsWith (s p : String) : Bool := s.takeRight p.length == p

/-- The extension test repeated in the three filters of the source
(`f.endswith('.mp4') or f.endswith('.avi') or f.endswith('.mov')`).
It is a case-sensitive suffix test. -/
def isVideoFile (f : String) : Bool :=
  strEndsWith f ".mp4" || strEndsWith f ".avi" || strEndsWith f ".mov"

/-- The specific-clip filter of `process_videos` (line 139): keep the files
with a supported extension. -/
def listVideoFiles (files : List String) : List String :=
  files.filter (fun f => isVideoFile f)

/-- The background filter of `process_videos` (line 126): keep the files that
start with the configured background marker string and have a supported
extension. -/
def listBackgroundVideos (bgPref : String) (files : List String) : List String :=
  files.filter (fun f => strStartsWith f bgPref && isVideoFile f)

/-- The overlay filter of `main` (line 178): files starting with
`"Overlay Tela Final"` with a supported extension. -/
def listOverlayFiles (files : List String) : List String :=
  files.filter (fun f => strStartsWith f "Overlay Tela Final" && isVideoFile f)

/-- Modelled from the spec (§4.1): the source contains no such operation, so
this strips the extension the way `os.path.splitext` does for ordinary
names — everything before the last dot, or the whole name when it has no
dot.  It exists only to compare the spec's claimed prefix derivation with
the code's behavior. -/
def stripExtension (f : String) : String :=
  if f.data.contains '.' then
    String.mk (((f.data.reverse.dropWhile (fun c => c != '.')).drop 1).reverse)
  else f

/-- Modelled from the spec (§4.1): the maximal leading run of non-digit
characters, `none` when the name starts with a digit or is empty.  The
source contains no such operation; this definition exists only to state
counterexamples against the spec's prefix-matcher claims. -/
def leadingNonDigitRun (s : String) : Option String :=
  let run := String.mk (s.data.takeWhile (fun c => !c.isDigit))
  if run = "" then none else some run

/-- One composer invocation as dispatched by the batch loop of
`process_videos` (lines 148–161): the four paths handed to
`create_final_screen`. -/
structure Job where
  backgroundPath : String
  specificPath : String
  overlayPath : String
  outputPath : String
  deriving DecidableEq, Repr

/-- The job built for one specific file `sv` in the loop body:
`specific_video_path = os.path.join(specific_folder, specific_video)` and
`output_path = os.path.join(output_folder, specific_video)`. -/
def mkJob (backgroundVideoPath specificFolder overlayVideoPath outputFolder sv : String) : Job :=
  { backgroundPath := backgroundVideoPath
    specificPath := joinPath specificFolder sv
    overlayPath := overlayVideoPath
    outputPath := joinPath outputFolder sv }

/-- Result of the batch loop: the success counter and the list of composer
invocations, in order. -/
structure BatchResult where
  successCount : Nat
  jobs : List Job
  deriving DecidableEq, Repr

/-- The `for specific_video in specific_videos` loop of `process_videos`
(lines 147–162): every listed file yields a composer invocation; the counter
increments when the composer reports success. -/
def runJobs (backgroundVideoPath specificFolder overlayVideoPath outputFolder : String)
    (renderOk : Job → Bool) : List String → BatchResult
  | [] => { successCount := 0, jobs := [] }
  | sv :: rest =>
    let job := mkJob backgroundVideoPath specificFolder overlayVideoPath outputFolder sv
    let r := runJobs backgroundVideoPath specificFolder overlayVideoPath outputFolder
      renderOk rest
    { successCount := (if renderOk job then 1 else 0) + r.successCount
      jobs := job :: r.jobs }

/-- `process_videos` (lines 100–164): filter the background listing by the
fixed marker `bgPref`, return 0 early when nothing matches, otherwise take
the FIRST match as the single background for the whole run; filter the
specific listing by extension, return 0 early when empty, otherwise run the
loop.  Directory side effects (creating the output folder) and printing are
not modelled; the media engine is abstracted by `renderOk`. -/
def processVideos (backgroundFolder specificFolder overlayVideoPath outputFolder bgPref : String)
    (renderOk : Job → Bool) (backgroundListing specificListing : List String) : BatchResult :=
  match listBackgroundVideos bgPref backgroundListing with
  | [] => { successCount := 0, jobs := [] }
  | b0 :: _ =>
    match listVideoFiles specificListing with
    | [] => { successCount := 0, jobs := [] }
    | sv :: rest =>
      runJobs (joinPath backgroundFolder b0) specificFolder overlayVideoPath outputFolder
        renderOk (sv :: rest)

/-- A decoded source video as seen by `VideoFileClip`: its path, its own
duration (seconds, exact rationals) and its frame size. -/
structure SourceClip where
  path : String
  duration : ℚ
  w : ℚ
  h : ℚ
  deriving DecidableEq, Repr

/-- The moviepy operations that `create_final_screen` applies to a layer.
`maskColor` is the color-key transparency operation of the media engine
(`fx(vfx.mask_color, color, thr)`); it is part of the operation language so
that its absence from the pipeline can be stated. -/
inductive Effect where
  | resizeTo (w h : ℕ)
  | subclip (tStart tEnd : ℚ)
  | resizeWidth (w : ℕ)
  | setPosition (x y : ℚ)
  | maskColor (r g b : ℕ) (thr : ℕ)
  deriving DecidableEq, Repr

/-- `true` exactly on the color-key transparency operation. -/
def isMaskEffect : Effect → Bool
  | Effect.maskColor _ _ _ _ => true
  | _ => false

/-- One in-memory clip object: its source, current duration and size, and
the operations applied so far, in order. -/
structure Clip where
  src : SourceClip
  duration : ℚ
  w : ℚ
  h : ℚ
  effects : List Effect
  deriving DecidableEq, Repr

/-- `VideoFileClip(path)`: a fresh clip with the source's own duration and
size and no operations applied. -/
def loadClip (s : SourceClip) : Clip :=
  { src := s, duration := s.duration, w := s.w, h := s.h, effects := [] }

/-- `.resize(resolution)`: set the frame size to `(w, h)`. -/
def resizeTo (c : Clip) (w h : ℕ) : Clip :=
  { c with w := (w : ℚ), h := (h : ℚ), effects := c.effects ++ [Effect.resizeTo w h] }

/-- `.subclip(0, t)` with moviepy 1.x semantics: the new duration is
`t - 0 = t`; `t` is NOT clamped to the clip's own duration (moviepy only
checks that the start time is within the clip). -/
def subclipTo (c : Clip) (t : ℚ) : Clip :=
  { c with duration := t, effects := c.effects ++ [Effect.subclip 0 t] }

/-- `.resize(width=w)`: moviepy rescales preserving aspect ratio. -/
def resizeWidth (c : Clip) (w : ℕ) : Clip :=
  { c with w := (w : ℚ), h := c.h * (w : ℚ) / c.w
         , effects := c.effects ++ [Effect.resizeWidth w] }

/-- `.set_position((x, y))`: record the placement of the layer. -/
def setPosition (c : Clip) (x y : ℚ) : Clip :=
  { c with effects := c.effects ++ [Effect.setPosition x y] }

/-- The fixed render parameters threaded through `create_final_screen`. -/
structure RenderParams where
  duration : ℚ
  resW : ℕ
  resH : ℕ
  specW : ℕ
  posX : ℚ
  posY : ℚ
  deriving DecidableEq, Repr

/-- The defaults of the source (`duration=20, resolution=(1280, 720),
specific_video_width=469, specific_video_position=(733.5, 398.8)`), also the
values `main` passes explicitly. -/
def defaultParams : RenderParams :=
  { duration := 20, resW := 1280, resH := 720, specW := 469
    posX := 733.5, posY := 398.8 }

/-- Lines 44 and 49: `VideoFileClip(background).resize(resolution)` then
`subclip(0, duration)` — unconditional, no comparison with the clip's own
duration. -/
def backgroundLayer (bg : SourceClip) (p : RenderParams) : Clip :=
  subclipTo (resizeTo (loadClip bg) p.resW p.resH) p.duration

/-- Lines 45 and 50: the overlay gets exactly the same treatment as the
background — resize to the output resolution, then `subclip(0, duration)`.
No mask of any kind is applied. -/
def overlayLayer (ov : SourceClip) (p : RenderParams) : Clip :=
  subclipTo (resizeTo (loadClip ov) p.resW p.resH) p.duration

/-- Lines 46, 53–54, 61 and 64: load the specific clip; `subclip(0,
duration)` only when its own duration exceeds the target; rescale to the
fixed width preserving aspect ratio; set its position. -/
def specificLayer (sp : SourceClip) (p : RenderParams) : Clip :=
  let c := loadClip sp
  let c2 := if c.duration > p.duration then subclipTo c p.duration else c
  setPosition (resizeWidth c2 p.specW) p.posX p.posY

/-- The composite built by `CompositeVideoClip([...], size=resolution)`:
layers in z-order, output size, and (before `set_duration`) the maximal
layer end time. -/
structure Composite where
  layers : List Clip
  sizeW : ℕ
  sizeH : ℕ
  duration : ℚ
  deriving DecidableEq, Repr

/-- `CompositeVideoClip(clips, size=resolution)`. -/
def compositeOf (ls : List Clip) (w h : ℕ) : Composite :=
  { layers := ls, sizeW := w, sizeH := h
    duration := (ls.map Clip.duration).foldr max 0 }

/-- `.set_duration(duration)` on the composite. -/
def setDuration (c : Composite) (d : ℚ) : Composite :=
  { c with duration := d }

/-- Lines 67–74: the composite written on the success path —
`CompositeVideoClip([background, overlay, specific], size=resolution)`
followed by `set_duration(duration)`. -/
def finalComposite (bg ov sp : SourceClip) (p : RenderParams) : Composite :=
  setDuration
    (compositeOf [backgroundLayer bg p, overlayLayer ov p, specificLayer sp p] p.resW p.resH)
    p.duration

/-- The pipeline steps of `create_final_screen` at which the external media
engine can raise an exception. -/
inductive Step where
  | openBackground
  | openOverlay
  | openSpecific
  | compositeStep
  | write
  deriving DecidableEq, Repr

/-- Handle name for the `CompositeVideoClip` object (closed as `final_clip`
on the success path). -/
def compositeHandle : String := "composite"

/-- The outcome of one `create_final_screen` call: the returned boolean, the
media handles opened before any exception, the handles explicitly closed,
and the composite written (success path only). -/
structure RenderResult where
  success : Bool
  opened : List String
  closed : List String
  written : Option Composite
  deriving DecidableEq, Repr

/-- `create_final_screen` (lines 40–97).  The whole body is one `try`: on an
exception at any step the `except` branch prints the message and returns
`False`, without reaching the `close()` calls — so `closed = []` on every
failure path.  The four `close()` calls (lines 87–90) run only after
`write_videofile` succeeds. -/
def createFinalScreen (bg ov sp : SourceClip) (p : RenderParams)
    (failAt : Option Step) : RenderResult :=
  if failAt = some Step.openBackground then
    { success := false, opened := [], closed := [], written := none }
  else if failAt = some Step.openOverlay then
    { success := false, opened := [bg.path], closed := [], written := none }
  else if failAt = some Step.openSpecific then
    { success := false, opened := [bg.path, ov.path], closed := [], written := none }
  else if failAt = some Step.compositeStep then
    { success := false, opened := [bg.path, ov.path, sp.path], closed := [], written := none }
  else if failAt = some Step.write then
    { success := false, opened := [bg.path, ov.path, sp.path, compositeHandle]
      closed := [], written := none }
  else
    { success := true
      opened := [bg.path, ov.path, sp.path, compositeHandle]
      closed := [bg.path, ov.path, sp.path, compositeHandle]
      written := some (finalComposite bg ov sp p) }

/-- The environment `main` (lines 167–221) observes: the script directory,
its listing, whether the `background` and `cortes` folders exist, their
listings, and the render oracle. -/
structure Env where
  scriptDir : String
  scriptDirListing : List String
  backgroundFolderExists : Bool
  specificFolderExists : Bool
  backgroundListing : List String
  specificListing : List String
  renderOk : Job → Bool

/-- `main`'s outcome: its return value (handed to `sys.exit`) and the batch
result when `process_videos` ran (`none` means the batch never started). -/
structure MainResult where
  exitCode : Nat
  batch : Option BatchResult

/-- `main` (lines 167–221): look for the overlay file, then check the two
folders, returning 1 on each missing piece before any rendering; otherwise
run `process_videos` with the fixed marker `"Autoc"` and return 0 whatever
the success count was. -/
def mainRun (env : Env) : MainResult :=
  match listOverlayFiles env.scriptDirListing with
  | [] => { exitCode := 1, batch := none }
  | o0 :: _ =>
    if env.backgroundFolderExists = false then
      { exitCode := 1, batch := none }
    else if env.specificFolderExists = false then
      { exitCode := 1, batch := none }
    else
      { exitCode := 0
        batch := some (processVideos (joinPath env.scriptDir "background")
          (joinPath env.scriptDir "cortes") (joinPath env.scriptDir o0)
          (joinPath env.scriptDir "output") "Autoc" env.renderOk
          env.backgroundListing env.specificListing) }

end TelaFinalCreator

namespace TelaFinalCreator

theorem runJobs_jobs (bgP spF ovP outF : String) (ok : Job → Bool) (l : List String) :
    (runJobs bgP spF ovP outF ok l).jobs = l.map (mkJob bgP spF ovP outF) := by
  induction l with
  | nil => rfl
  | cons sv rest ih => simp [runJobs, ih]

theorem runJobs_count (bgP spF ovP outF : String) (ok : Job → Bool) (l : List String) :
    (runJobs bgP spF ovP outF ok l).successCount =
      l.countP (fun sv => ok (mkJob bgP spF ovP outF sv)) := by
  induction l with
  | nil => rfl
  | cons sv rest ih =>
    simp [runJobs, ih, List.countP_cons]
    cases ok (mkJob bgP spF ovP outF sv) <;> simp [Nat.add_comm]

theorem processVideos_eq_runJobs (bgF spF ovP outF pr : String) (ok : Job → Bool)
    (bgL spL : List String) (b0 : String) (rest : List String)
    (hbg : listBackgroundVideos pr bgL = b0 :: rest) :
    processVideos bgF spF ovP outF pr ok bgL spL =
      runJobs (joinPath bgF b0) spF ovP outF ok (listVideoFiles spL) := by
  unfold processVideos
  rw [hbg]
  cases hl : listVideoFiles spL with
  | nil => simp [runJobs]
  | cons a t => simp

theorem processVideos_skip (bgF spF ovP outF pr : String) (ok : Job → Bool)
    (bgL spL : List String)
    (h : listBackgroundVideos pr bgL = [] ∨ listVideoFiles spL = []) :
    processVideos bgF spF ovP outF pr ok bgL spL = { successCount := 0, jobs := [] } := by
  unfold processVideos
  rcases h with h | h
  · rw [h]
  · rw [h]
    cases listBackgroundVideos pr bgL <;> rfl

theorem listBackgroundVideos_head_startsWith (pr : String) (files : List String)
    (b0 : String) (rest : List String)
    (h : listBackgroundVideos pr files = b0 :: rest) :
    strStartsWith b0 pr = true ∧ isVideoFile b0 = true := by
  have hb : b0 ∈ listBackgroundVideos pr files := by
    rw [h]; exact List.mem_cons_self _ _
  have hm := List.mem_filter.mp hb
  have := hm.2
  simp only [Bool.and_eq_true] at this
  exact this

/-- C1 (counterexample): the spec's prefix operation would be absent on
`"20Autoc.mp4"` (its base name starts with a digit), yet the code has no
such operation at all — `process_videos` processes that file like any
other, constructing a job against the fixed-marker background and counting
a success, instead of producing any absent/empty result. -/
theorem claim_C1_counterexample :
    leadingNonDigitRun (stripExtension "20Autoc.mp4") = none ∧
    processVideos "background" "cortes" "ov.mp4" "output" "Autoc" (fun _ => true)
        ["Autoc1.mp4"] ["20Autoc.mp4"] =
      { successCount := 1
        jobs := [{ backgroundPath := "background/Autoc1.mp4"
                   specificPath := "cortes/20Autoc.mp4"
                   overlayPath := "ov.mp4"
                   outputPath := "output/20Autoc.mp4" }] } := by
  decide

/-- C1 (amended): the code derives no prefix from any filename.  Its only
prefix notion is the fixed `background_prefix` parameter (default
`"Autoc"`): whenever some background file matches it, the batch builds one
job per supported specific file, all against the first match, with no
filename analysis beyond the extension filter. -/
theorem claim_C1_amended (bgF spF ovP outF pr : String) (ok : Job → Bool)
    (bgL spL : List String) (b0 : String) (rest : List String)
    (hbg : listBackgroundVideos pr bgL = b0 :: rest) :
    (processVideos bgF spF ovP outF pr ok bgL spL).jobs =
      (listVideoFiles spL).map (mkJob (joinPath bgF b0) spF ovP outF) := by
  rw [processVideos_eq_runJobs bgF spF ovP outF pr ok bgL spL b0 rest hbg, runJobs_jobs]

/-- C1 (witness): the amended statement instantiated on a concrete run. -/
theorem claim_C1_witness :
    (processVideos "background" "cortes" "ov.mp4" "output" "Autoc" (fun _ => true)
        ["Autoc1.mp4"] ["20Autoc.mp4", "clip.MP4"]).jobs =
      (listVideoFiles ["20Autoc.mp4", "clip.MP4"]).map
        (mkJob (joinPath "background" "Autoc1.mp4") "cortes" "ov.mp4" "output") :=
  claim_C1_amended "background" "cortes" "ov.mp4" "output" "Autoc" (fun _ => true)
    ["Autoc1.mp4"] ["20Autoc.mp4", "clip.MP4"] "Autoc1.mp4" [] (by decide)

/-- C2 (counterexample): the specific file `"Zeta1.mp4"` has derived prefix
`"Zeta"` (in the spec's sense) and no background starting with `"Zeta"`
exists, yet the code constructs a job for it against `"Autoc20.mp4"` — a
background that does not share its prefix — and invokes the composer
instead of skipping the item. -/
theorem claim_C2_counterexample :
    leadingNonDigitRun (stripExtension "Zeta1.mp4") = some "Zeta" ∧
    strStartsWith "Autoc20.mp4" "Zeta" = false ∧
    processVideos "background" "cortes" "Overlay Tela Final.mp4" "output" "Autoc"
        (fun _ => true) ["Autoc20.mp4"] ["Zeta1.mp4"] =
      { successCount := 1
        jobs := [{ backgroundPath := "background/Autoc20.mp4"
                   specificPath := "cortes/Zeta1.mp4"
                   overlayPath := "Overlay Tela Final.mp4"
                   outputPath := "output/Zeta1.mp4" }] } := by
  decide

/-- C2 (amended): every job the batch constructs uses a background whose
filename starts with the fixed configured `background_prefix` — not a
prefix derived from that job's specific filename — namely the first
background matching the fixed marker. -/
theorem claim_C2_amended (bgF spF ovP outF pr : String) (ok : Job → Bool)
    (bgL spL : List String) (job : Job)
    (hj : job ∈ (processVideos bgF spF ovP outF pr ok bgL spL).jobs) :
    ∃ b0 rest, listBackgroundVideos pr bgL = b0 :: rest ∧
      strStartsWith b0 pr = true ∧ job.backgroundPath = joinPath bgF b0 := by
  cases hbg : listBackgroundVideos pr bgL with
  | nil =>
    rw [processVideos_skip bgF spF ovP outF pr ok bgL spL (Or.inl hbg)] at hj
    simp at hj
  | cons b0 rest =>
    refine ⟨b0, rest, rfl, (listBackgroundVideos_head_startsWith pr bgL b0 rest hbg).1, ?_⟩
    rw [processVideos_eq_runJobs bgF spF ovP outF pr ok bgL spL b0 rest hbg,
      runJobs_jobs] at hj
    obtain ⟨sv, hsv, hEq⟩ := List.mem_map.mp hj
    rw [← hEq]
    rfl

/-- C2 (witness): the amended statement instantiated on a concrete job. -/
theorem claim_C2_witness :
    ∃ b0 rest, listBackgroundVideos "Autoc" ["Autoc20.mp4"] = b0 :: rest ∧
      strStartsWith b0 "Autoc" = true ∧
      Job.backgroundPath
        { backgroundPath := "background/Autoc20.mp4"
          specificPath := "cortes/Autoc1.mp4"
          overlayPath := "ov.mp4"
          outputPath := "output/Autoc1.mp4" } = joinPath "background" b0 :=
  claim_C2_amended "background" "cortes" "ov.mp4" "output" "Autoc" (fun _ => true)
    ["Autoc20.mp4"] ["Autoc1.mp4"]
    { backgroundPath := "background/Autoc20.mp4"
      specificPath := "cortes/Autoc1.mp4"
      overlayPath := "ov.mp4"
      outputPath := "output/Autoc1.mp4" } (by decide)

/-- C3 (counterexample): one concrete composer invocation in which no
color-key mask (nor any mask) is applied to any layer: the overlay layer's
full operation list is just the resize to the output resolution followed by
the truncation — no `maskColor` operation with key black and threshold 10
occurs anywhere in the written composite. -/
theorem claim_C3_counterexample :
    (createFinalScreen { path := "background/Autoc20.mp4", duration := 20, w := 1920, h := 1080 }
        { path := "Overlay Tela Final.mp4", duration := 25, w := 1280, h := 720 }
        { path := "cortes/Autoc1.mp4", duration := 30, w := 1920, h := 1080 }
        defaultParams none).written =
      some (finalComposite
        { path := "background/Autoc20.mp4", duration := 20, w := 1920, h := 1080 }
        { path := "Overlay Tela Final.mp4", duration := 25, w := 1280, h := 720 }
        { path := "cortes/Autoc1.mp4", duration := 30, w := 1920, h := 1080 }
        defaultParams) ∧
    (finalComposite
        { path := "background/Autoc20.mp4", duration := 20, w := 1920, h := 1080 }
        { path := "Overlay Tela Final.mp4", duration := 25, w := 1280, h := 720 }
        { path := "cortes/Autoc1.mp4", duration := 30, w := 1920, h := 1080 }
        defaultParams).layers.all
      (fun c => c.effects.all (fun e => !(isMaskEffect e))) = true ∧
    (overlayLayer { path := "Overlay Tela Final.mp4", duration := 25, w := 1280, h := 720 }
        defaultParams).effects = [Effect.resizeTo 1280 720, Effect.subclip 0 20] := by
  refine ⟨rfl, by decide, by decide⟩

/-- C3 (amended): no color-key (or other) transparency mask is ever applied:
in every composer invocation the overlay layer's operations are exactly the
resize to the output resolution and the truncation, and no layer of the
composite carries a mask operation. -/
theorem claim_C3_amended (bg ov sp : SourceClip) (p : RenderParams) :
    (overlayLayer ov p).effects =
      [Effect.resizeTo p.resW p.resH, Effect.subclip 0 p.duration] ∧
    (finalComposite bg ov sp p).layers.all
      (fun c => c.effects.all (fun e => !(isMaskEffect e))) = true := by
  constructor
  · simp [overlayLayer, subclipTo, resizeTo, loadClip]
  · simp only [finalComposite, setDuration, compositeOf, backgroundLayer, overlayLayer,
      specificLayer, List.all_cons, List.all_nil]
    simp [subclipTo, resizeTo, resizeWidth, setPosition, loadClip, isMaskEffect]
    split <;> simp [subclipTo, isMaskEffect]

/-- C4: `main` returns 1 exactly when the overlay file is missing, the
background folder is missing, or the specific-clip folder is missing; in
every other case it returns 0 (whatever the per-item outcomes were), and on
every exit-1 path the batch never started, so no rendering happened. -/
theorem claim_C4 (env : Env) :
    ((mainRun env).exitCode = 1 ↔
      (listOverlayFiles env.scriptDirListing = [] ∨
       env.backgroundFolderExists = false ∨
       env.specificFolderExists = false)) ∧
    ((mainRun env).exitCode = 0 ∨ (mainRun env).exitCode = 1) ∧
    ((mainRun env).batch = none ↔ (mainRun env).exitCode = 1) := by
  cases hov : listOverlayFiles env.scriptDirListing with
  | nil => simp [mainRun, hov]
  | cons o0 os =>
    cases hbg : env.backgroundFolderExists <;>
      cases hsp : env.specificFolderExists <;>
        simp [mainRun, hov, hbg, hsp]

/-- C5 (counterexample): a background of duration 5 with configured duration
20 — the code applies `subclip(0, 20)` unconditionally, leaving the layer
with duration 20, not `min(20, 5) = 5`; the overlay is treated the same
way.  Nothing keeps a shorter clip at its own length. -/
theorem claim_C5_counterexample :
    (backgroundLayer { path := "background/Autoc5.mp4", duration := 5, w := 1920, h := 1080 }
        defaultParams).duration = 20 ∧
    Effect.subclip 0 20 ∈
      (backgroundLayer { path := "background/Autoc5.mp4", duration := 5, w := 1920, h := 1080 }
        defaultParams).effects ∧
    (overlayLayer { path := "Overlay Tela Final.mp4", duration := 5, w := 1280, h := 720 }
        defaultParams).duration = 20 ∧
    min (20 : ℚ) 5 = 5 ∧ ¬ ((20 : ℚ) = 5) := by
  refine ⟨by decide, by decide, by decide, by norm_num, by norm_num⟩

/-- C5 (amended): the background and overlay are truncated to the configured
duration unconditionally — `subclip(0, duration)` with no comparison
against the clip's own duration — so each of those layers always ends up
with exactly the configured duration and exactly the operations resize
followed by `subclip 0 duration`. -/
theorem claim_C5_amended (bg ov : SourceClip) (p : RenderParams) :
    (backgroundLayer bg p).duration = p.duration ∧
    (overlayLayer ov p).duration = p.duration ∧
    (backgroundLayer bg p).effects =
      [Effect.resizeTo p.resW p.resH, Effect.subclip 0 p.duration] ∧
    (overlayLayer ov p).effects =
      [Effect.resizeTo p.resW p.resH, Effect.subclip 0 p.duration] := by
  refine ⟨rfl, rfl, ?_, ?_⟩ <;> simp [backgroundLayer, overlayLayer, subclipTo, resizeTo, loadClip]

/-- C6: when the specific clip is longer than the configured duration it is
truncated to that duration (`subclip(0, duration)` guarded by the
comparison), and the written composite's total duration equals the
configured duration — never the specific clip's own length. -/
theorem claim_C6 (bg ov sp : SourceClip) (p : RenderParams)
    (h : sp.duration > p.duration) :
    (specificLayer sp p).duration = p.duration ∧
    (specificLayer sp p).effects =
      [Effect.subclip 0 p.duration, Effect.resizeWidth p.specW,
       Effect.setPosition p.posX p.posY] ∧
    (finalComposite bg ov sp p).duration = p.duration ∧
    ¬ ((finalComposite bg ov sp p).duration = sp.duration) ∧
    (createFinalScreen bg ov sp p none).written = some (finalComposite bg ov sp p) := by
  refine ⟨?_, ?_, rfl, ?_, ?_⟩
  · simp [specificLayer, setPosition, resizeWidth, subclipTo, loadClip, h]
  · simp [specificLayer, setPosition, resizeWidth, subclipTo, loadClip, h]
  · intro heq
    have hpd : p.duration = sp.duration := heq
    rw [hpd] at h
    exact lt_irrefl _ h
  · simp [createFinalScreen]

/-- C6 (witness): a 30-second specific clip with the default 20-second
configuration. -/
theorem claim_C6_witness :
    (specificLayer { path := "cortes/Autoc1.mp4", duration := 30, w := 1920, h := 1080 }
        defaultParams).duration = defaultParams.duration ∧
    (specificLayer { path := "cortes/Autoc1.mp4", duration := 30, w := 1920, h := 1080 }
        defaultParams).effects =
      [Effect.subclip 0 defaultParams.duration, Effect.resizeWidth defaultParams.specW,
       Effect.setPosition defaultParams.posX defaultParams.posY] ∧
    (finalComposite { path := "background/Autoc20.mp4", duration := 20, w := 1920, h := 1080 }
        { path := "Overlay Tela Final.mp4", duration := 20, w := 1280, h := 720 }
        { path := "cortes/Autoc1.mp4", duration := 30, w := 1920, h := 1080 }
        defaultParams).duration = defaultParams.duration ∧
    ¬ ((finalComposite { path := "background/Autoc20.mp4", duration := 20, w := 1920, h := 1080 }
        { path := "Overlay Tela Final.mp4", duration := 20, w := 1280, h := 720 }
        { path := "cortes/Autoc1.mp4", duration := 30, w := 1920, h := 1080 }
        defaultParams).duration =
      SourceClip.duration { path := "cortes/Autoc1.mp4", duration := 30, w := 1920, h := 1080 }) ∧
    (createFinalScreen { path := "background/Autoc20.mp4", duration := 20, w := 1920, h := 1080 }
        { path := "Overlay Tela Final.mp4", duration := 20, w := 1280, h := 720 }
        { path := "cortes/Autoc1.mp4", duration := 30, w := 1920, h := 1080 }
        defaultParams none).written =
      some (finalComposite
        { path := "background/Autoc20.mp4", duration := 20, w := 1920, h := 1080 }
        { path := "Overlay Tela Final.mp4", duration := 20, w := 1280, h := 720 }
        { path := "cortes/Autoc1.mp4", duration := 30, w := 1920, h := 1080 }
        defaultParams) :=
  claim_C6 { path := "background/Autoc20.mp4", duration := 20, w := 1920, h := 1080 }
    { path := "Overlay Tela Final.mp4", duration := 20, w := 1280, h := 720 }
    { path := "cortes/Autoc1.mp4", duration := 30, w := 1920, h := 1080 }
    defaultParams (by norm_num [defaultParams])

/-- C7 (counterexample): the extension test is a case-sensitive suffix
check, so `"clip.MP4"` is NOT enumerated — in either directory — although
the claim says case-insensitive matching accepts it. -/
theorem claim_C7_counterexample :
    isVideoFile "clip.MP4" = false ∧
    listVideoFiles ["clip.MP4", "clip2.mp4"] = ["clip2.mp4"] ∧
    listBackgroundVideos "Autoc" ["AutocFundo.MP4"] = [] := by
  decide

/-- C7 (amended): both directory filters accept exactly the files whose name
ends with the lowercase suffix `".mp4"`, `".avi"` or `".mov"`, matched
case-sensitively (the background filter additionally requires the fixed
marker at the start of the name). -/
theorem claim_C7_amended (f pr : String) (files : List String) :
    (f ∈ listVideoFiles files ↔
      f ∈ files ∧
        (strEndsWith f ".mp4" || strEndsWith f ".avi" || strEndsWith f ".mov") = true) ∧
    (f ∈ listBackgroundVideos pr files ↔
      f ∈ files ∧ strStartsWith f pr = true ∧
        (strEndsWith f ".mp4" || strEndsWith f ".avi" || strEndsWith f ".mov") = true) := by
  constructor
  · simp [listVideoFiles, List.mem_filter, isVideoFile]
  · simp [listBackgroundVideos, List.mem_filter, isVideoFile, Bool.and_eq_true, and_assoc]

/-- C8 (counterexample): a render whose encode step (`write_videofile`)
raises: the call returns failure, four media handles had been opened, and
none of them is closed — the `close()` calls live after the write inside
the `try` block, so the failure path releases nothing. -/
theorem claim_C8_counterexample :
    (createFinalScreen { path := "background/Autoc20.mp4", duration := 20, w := 1920, h := 1080 }
        { path := "Overlay Tela Final.mp4", duration := 20, w := 1280, h := 720 }
        { path := "cortes/Autoc1.mp4", duration := 10, w := 1920, h := 1080 }
        defaultParams (some Step.write)).success = false ∧
    (createFinalScreen { path := "background/Autoc20.mp4", duration := 20, w := 1920, h := 1080 }
        { path := "Overlay Tela Final.mp4", duration := 20, w := 1280, h := 720 }
        { path := "cortes/Autoc1.mp4", duration := 10, w := 1920, h := 1080 }
        defaultParams (some Step.write)).opened =
      ["background/Autoc20.mp4", "Overlay Tela Final.mp4", "cortes/Autoc1.mp4", "composite"] ∧
    (createFinalScreen { path := "background/Autoc20.mp4", duration := 20, w := 1920, h := 1080 }
        { path := "Overlay Tela Final.mp4", duration := 20, w := 1280, h := 720 }
        { path := "cortes/Autoc1.mp4", duration := 10, w := 1920, h := 1080 }
        defaultParams (some Step.write)).closed = [] := by
  refine ⟨by decide, by decide, by decide⟩

/-- C8 (amended): an exception at any pipeline step is caught and mapped to
a `False` return, but the clips are closed only on the success path: the
call succeeds exactly when no step raises, and the closed handles equal the
opened ones on success and are empty on every failure. -/
theorem claim_C8_amended (bg ov sp : SourceClip) (p : RenderParams) (failAt : Option Step) :
    (createFinalScreen bg ov sp p failAt).success = failAt.isNone ∧
    (createFinalScreen bg ov sp p failAt).closed =
      (if failAt = none then (createFinalScreen bg ov sp p failAt).opened else []) := by
  cases failAt with
  | none => simp [createFinalScreen]
  | some s => cases s <;> simp [createFinalScreen]

/-- C9: whenever the batch constructs any job, there is a single background
— the first file of the background listing that starts with the fixed
marker `"Autoc"` and has a supported extension — and every job of the run
uses exactly that background path, regardless of the specific filename. -/
theorem claim_C9 (bgF spF ovP outF : String) (ok : Job → Bool) (bgL spL : List String)
    (job : Job)
    (hj : job ∈ (processVideos bgF spF ovP outF "Autoc" ok bgL spL).jobs) :
    ∃ b0, (listBackgroundVideos "Autoc" bgL).head? = some b0 ∧
      strStartsWith b0 "Autoc" = true ∧
      job.backgroundPath = joinPath bgF b0 ∧
      ∀ job2 ∈ (processVideos bgF spF ovP outF "Autoc" ok bgL spL).jobs,
        job2.backgroundPath = joinPath bgF b0 := by
  cases hbg : listBackgroundVideos "Autoc" bgL with
  | nil =>
    rw [processVideos_skip bgF spF ovP outF "Autoc" ok bgL spL (Or.inl hbg)] at hj
    simp at hj
  | cons b0 rest =>
    refine ⟨b0, rfl,
      (listBackgroundVideos_head_startsWith "Autoc" bgL b0 rest hbg).1, ?_, ?_⟩
    · rw [processVideos_eq_runJobs bgF spF ovP outF "Autoc" ok bgL spL b0 rest hbg,
        runJobs_jobs] at hj
      obtain ⟨sv, hsv, hEq⟩ := List.mem_map.mp hj
      rw [← hEq]
      rfl
    · intro job2 hj2
      rw [processVideos_eq_runJobs bgF spF ovP outF "Autoc" ok bgL spL b0 rest hbg,
        runJobs_jobs] at hj2
      obtain ⟨sv, hsv, hEq⟩ := List.mem_map.mp hj2
      rw [← hEq]
      rfl

/-- C9 (witness): a run with two specific clips and several backgrounds,
instantiated on the first constructed job. -/
theorem claim_C9_witness :
    ∃ b0, (listBackgroundVideos "Autoc"
        ["fundo.mp4", "Autoc20.mp4", "Autoc7.mov"]).head? = some b0 ∧
      strStartsWith b0 "Autoc" = true ∧
      Job.backgroundPath
        { backgroundPath := "background/Autoc20.mp4"
          specificPath := "cortes/Autoc1.mp4"
          overlayPath := "ov.mp4"
          outputPath := "output/Autoc1.mp4" } = joinPath "background" b0 ∧
      ∀ job2 ∈ (processVideos "background" "cortes" "ov.mp4" "output" "Autoc" (fun _ => true)
          ["fundo.mp4", "Autoc20.mp4", "Autoc7.mov"] ["Autoc1.mp4", "Beta2.mov"]).jobs,
        job2.backgroundPath = joinPath "background" b0 :=
  claim_C9 "background" "cortes" "ov.mp4" "output" (fun _ => true)
    ["fundo.mp4", "Autoc20.mp4", "Autoc7.mov"] ["Autoc1.mp4", "Beta2.mov"]
    { backgroundPath := "background/Autoc20.mp4"
      specificPath := "cortes/Autoc1.mp4"
      overlayPath := "ov.mp4"
      outputPath := "output/Autoc1.mp4" } (by decide)

/-- C10: when the configuration checks pass but no background matches the
fixed marker or the specific folder holds no supported file,
`process_videos` returns 0 with no composer invocation at all, and the
process still exits 0. -/
theorem claim_C10 (env : Env)
    (hov : ¬ (listOverlayFiles env.scriptDirListing = []))
    (hbg : env.backgroundFolderExists = true)
    (hsp : env.specificFolderExists = true)
    (h : listBackgroundVideos "Autoc" env.backgroundListing = [] ∨
      listVideoFiles env.specificListing = []) :
    (mainRun env).exitCode = 0 ∧
    (mainRun env).batch = some { successCount := 0, jobs := [] } := by
  cases hov2 : listOverlayFiles env.scriptDirListing with
  | nil => exact absurd hov2 hov
  | cons o0 os =>
    have hskip := processVideos_skip (joinPath env.scriptDir "background")
      (joinPath env.scriptDir "cortes") (joinPath env.scriptDir o0)
      (joinPath env.scriptDir "output") "Autoc" env.renderOk
      env.backgroundListing env.specificListing h
    simp [mainRun, hov2, hbg, hsp, hskip]

/-- C10 (witness): an environment whose background folder holds no file
starting with `"Autoc"`. -/
theorem claim_C10_witness :
    (mainRun { scriptDir := "/app", scriptDirListing := ["Overlay Tela Final.mp4"]
               backgroundFolderExists := true, specificFolderExists := true
               backgroundListing := ["fundo.mp4"], specificListing := ["Autoc1.mp4"]
               renderOk := fun _ => true }).exitCode = 0 ∧
    (mainRun { scriptDir := "/app", scriptDirListing := ["Overlay Tela Final.mp4"]
               backgroundFolderExists := true, specificFolderExists := true
               backgroundListing := ["fundo.mp4"], specificListing := ["Autoc1.mp4"]
               renderOk := fun _ => true }).batch =
      some { successCount := 0, jobs := [] } :=
  claim_C10 { scriptDir := "/app", scriptDirListing := ["Overlay Tela Final.mp4"]
              backgroundFolderExists := true, specificFolderExists := true
              backgroundListing := ["fundo.mp4"], specificListing := ["Autoc1.mp4"]
              renderOk := fun _ => true }
    (by decide) rfl rfl (Or.inl (by decide))

end TelaFinalCreator
